import Mathlib

/-!
Verification of the service orchestration and recovery logic of the vs-ord
extension. The TypeScript sources are shallowly embedded: pure classification
logic becomes Lean functions on `String`/`Nat`, stateful polling loops become
fuel-indexed recursions over oracles describing the observed environment, and
process invocations become explicit outcome parameters.
-/

/-- Boolean test that the first character list is a prefix of the second.
Embeds the prefix step of the JavaScript `String.prototype.includes` search. -/
def strPrefixB : List Char → List Char → Bool
  | [], _ => true
  | _ :: _, [] => false
  | a :: as, b :: bs => a == b && strPrefixB as bs

/-- Boolean test that `pat` occurs as a contiguous substring of `s`.
Embeds the JavaScript `String.prototype.includes` used throughout the repo. -/
def occursIn (pat : List Char) : List Char → Bool
  | [] => pat.isEmpty
  | c :: rest => strPrefixB pat (c :: rest) || occursIn pat rest

/-- Substring test lifted to `String`, matching `a.includes(b)` in the source. -/
def strContains (s pat : String) : Bool :=
  occursIn pat.data s.data

theorem strPrefixB_iff (p s : List Char) : strPrefixB p s = true ↔ p <+: s := by
  induction p generalizing s with
  | nil => simp [strPrefixB]
  | cons a as ih =>
    cases s with
    | nil => simp [strPrefixB]
    | cons b bs =>
      simp [strPrefixB, List.cons_prefix_cons, ih, Bool.and_eq_true, beq_iff_eq]

theorem occursIn_iff (p s : List Char) : occursIn p s = true ↔ p <:+: s := by
  induction s with
  | nil =>
    simp [occursIn, List.isEmpty_iff]
  | cons c rest ih =>
    simp [occursIn, Bool.or_eq_true, strPrefixB_iff, ih, List.infix_cons_iff]

/-- Embeds `isVersionMismatchError` from the ord service manager: true when the
stderr text matches any of the four on-disk schema incompatibility signatures. -/
def isVersionMismatchError (errorMessage : String) : Bool :=
  strContains errorMessage "Manual upgrade required" ||
  strContains errorMessage "Expected file format version" ||
  strContains errorMessage "failed to open index" ||
  strContains errorMessage "failed to open wallet database"

/-- Embeds the `Network` union type from the configuration module. -/
inductive Network
  | regtest
  | testnet
  | signet
  | mainnet
deriving DecidableEq

/-- Character predicate matching the whitespace skipped by JavaScript string
trimming and by `parseInt`. -/
def isJsWhitespace (c : Char) : Bool :=
  c == ' ' || c == '\t' || c == '\n' || c == '\r' || c == '\x0b' || c == '\x0c'

/-- Embeds the JavaScript `String.prototype.trim` call applied to response
bodies before parsing. -/
def trimChars (l : List Char) : List Char :=
  ((l.dropWhile isJsWhitespace).reverse.dropWhile isJsWhitespace).reverse

/-- Numeric value of the longest leading run of decimal digits, or `none` when
there is no leading digit, as computed by `parseInt(s, 10)` after the sign. -/
def leadingDigitsVal (l : List Char) : Option Nat :=
  let ds := l.takeWhile Char.isDigit
  if ds.isEmpty then none
  else some (ds.foldl (fun a c => a * 10 + (c.toNat - 48)) 0)

/-- Parse of a character list in the manner of `parseInt(s, 10)`: an optional
sign followed by a longest run of decimal digits; `none` models `NaN`. -/
def parseIntChars : List Char → Option Int
  | '-' :: rest => (leadingDigitsVal rest).map (fun n => -(n : Int))
  | '+' :: rest => (leadingDigitsVal rest).map (fun n => (n : Int))
  | l => (leadingDigitsVal l).map (fun n => (n : Int))

/-- Embeds the `parseInt(body.trim(), 10)` idiom used by the readiness and
health-check code paths; `none` models a `NaN` result. -/
def parseIntJS (s : String) : Option Int :=
  parseIntChars (trimChars s.data)

/-- Embeds the `OrdHealthCheck` result record of the ord service manager. -/
structure OrdHealthCheck where
  healthy : Bool
  blockcount : Option Int
  error : Option String
deriving DecidableEq

/-- Embeds the response classification of `verifyOrdBitcoindConnection`: the
function resolves with a health record computed from the HTTP status code and
response body of the `/blockcount` request. -/
def verifyOrdBitcoindConnection (status : Nat) (body : String) : OrdHealthCheck :=
  if status = 200 then
    match parseIntJS body with
    | some n =>
      if 0 ≤ n then { healthy := true, blockcount := some n, error := none }
      else { healthy := false, blockcount := none,
             error := some ("Invalid blockcount response: " ++ body) }
    | none =>
      { healthy := false, blockcount := none,
        error := some ("Invalid blockcount response: " ++ body) }
  else if status = 500 then
    { healthy := false, blockcount := none,
      error := some ("Server error (likely auth failure): " ++ body) }
  else
    { healthy := false, blockcount := none,
      error := some ("HTTP " ++ toString status ++ ": " ++ body) }

/-- Outcome of one HTTP request made by the readiness probes: a connection
error, a timeout, or a response with a status code and a body. -/
inductive HttpOutcome
  | connError
  | timedOut
  | response (status : Nat) (body : String)
deriving DecidableEq

/-- Embeds `isOrdServerReady`: the promise always resolves with a boolean, true
exactly when the `/blockcount` request yields status 200 and a body whose
`parseInt` value is a non-negative integer. -/
def isOrdServerReady : HttpOutcome → Bool
  | .connError => false
  | .timedOut => false
  | .response status body =>
    if status = 200 then
      match parseIntJS body with
      | some n => decide (0 ≤ n)
      | none => false
    else false

/-- Embeds `getRpcPort` from the configuration module: a user-configured RPC
port other than the regtest default 18443 wins on every network; otherwise the
per-network default port is used. -/
def getRpcPort (bitcoindRpcPort : Nat) (network : Network) : Nat :=
  if bitcoindRpcPort ≠ 18443 then
    bitcoindRpcPort
  else
    match network with
    | .mainnet => 8332
    | .testnet => 18332
    | .signet => 38332
    | .regtest => 18443

/-- Embeds `waitForOrdSync`: repeatedly query the ord `/blockcount` endpoint
until the reported height reaches `expected`. The oracle `heights i` gives the
result of the poll at iteration `i` (`none` models a thrown `getOrdBlockCount`
error, which the loop ignores). The time bound `maxWaitMs` with its fixed
500 ms sleep is modelled by the iteration budget `fuel`. -/
def waitForOrdSync (heights : Nat → Option Nat) (expected : Nat) :
    Nat → Nat → Bool
  | _, 0 => false
  | i, fuel + 1 =>
    match heights i with
    | some h =>
      if expected ≤ h then true
      else waitForOrdSync heights expected (i + 1) fuel
    | none => waitForOrdSync heights expected (i + 1) fuel

/-- Phase reached by the `doInscribe` workflow before it stops. -/
inductive InscribeOutcome
  | servicesNotRunning
  | insufficientFunds
  | syncFailed
  | published
deriving DecidableEq

/-- Embeds the phase sequencing of `doInscribe` from the ensure-services step
through the call to `inscribeFile`: `servicesOk` is the result of
`ensureServicesRunning`, `funded` the result of `ensureWalletFunded`,
`nodeBlocks` the `getblockcount` RPC answer, and `heights` with `budget` drive
the embedded `waitForOrdSync` barrier. `published` marks that `inscribeFile`
was invoked. -/
def doInscribe (servicesOk funded : Bool) (network : Network)
    (nodeBlocks : Nat) (heights : Nat → Option Nat) (budget : Nat) :
    InscribeOutcome :=
  if servicesOk = false then .servicesNotRunning
  else if funded = false ∧ network ≠ Network.regtest then .insufficientFunds
  else if waitForOrdSync heights nodeBlocks 0 budget then .published
  else .syncFailed

/-- Point at which the `mineBlocks` command returns. -/
inductive MineOutcome
  | refusedNetwork
  | notRunning
  | cancelled
  | mined (blocks : Nat)
deriving DecidableEq

/-- Embeds the control flow of the `mineBlocks` command: outcome paired with a
flag recording whether the `generatetoaddress` RPC call was issued. The
`input` parameter is the validated block count from the input box (`none`
models a dismissed prompt). -/
def mineBlocks (network : Network) (running : Bool) (input : Option Nat) :
    MineOutcome × Bool :=
  if network ≠ Network.regtest then (.refusedNetwork, false)
  else if running = false then (.notRunning, false)
  else
    match input with
    | none => (.cancelled, false)
    | some n => (.mined n, true)

/-- Embeds the `COINBASE_MATURITY` constant of the wallet command module. -/
def COINBASE_MATURITY : Nat := 100

/-- Result of `ensureWalletFunded`: the returned boolean paired with the block
count passed to `generateToAddress`, or `none` when no mining happened. -/
structure FundTrace where
  funded : Bool
  blocksMined : Option Nat
deriving DecidableEq

/-- Embeds the funding decision of `ensureWalletFunded` after the wallet
sub-operations have succeeded and the balance query returned `cardinal`: below
10000 sats on regtest the function mines `COINBASE_MATURITY + 1` blocks to the
receive address and returns true; otherwise it mines nothing and returns
whether the balance already meets the minimum. -/
def ensureWalletFunded (network : Network) (cardinal : Nat) : FundTrace :=
  if cardinal < 10000 ∧ network = Network.regtest then
    { funded := true, blocksMined := some (COINBASE_MATURITY + 1) }
  else
    { funded := decide (10000 ≤ cardinal), blocksMined := none }

/-- Resolution of one `createOrdWallet` invocation. -/
inductive WalletCreateOutcome
  | ok
  | recoveryRetry
  | err (msg : String)
deriving DecidableEq

/-- Embeds the exit classification of `createOrdWallet`: `exitOk` is whether
the `exec` callback received a null error; on failure, an "already exists"
substring in stderr or stdout resolves as success, a version-mismatch stderr
with retry allowed takes the clear-and-retry path, and anything else rejects
with a message built from stderr (or from the exec error text when stderr is
empty, mirroring the falsy-string fallback). -/
def createOrdWallet (exitOk : Bool) (stdoutS stderrS errMsg : String)
    (retryAfterClear : Bool) : WalletCreateOutcome :=
  if exitOk then .ok
  else if strContains stderrS "already exists" ||
          strContains stdoutS "already exists" then .ok
  else if isVersionMismatchError stderrS && retryAfterClear then .recoveryRetry
  else .err ("Failed to create wallet: " ++
             (if stderrS = "" then errMsg else stderrS))

/-- Embeds the `Platform` union of the platform module. -/
inductive Platform
  | windows
  | macos
  | linux
deriving DecidableEq

/-- Embeds `checkPortInUse` from the bitcoind service manager: on any platform
other than Windows the function returns false without probing; on Windows it
reports whether netstat finds a listener on the port (`portHasListener`). -/
def checkPortInUse (plat : Platform) (portHasListener : Bool) : Bool :=
  match plat with
  | .windows => portHasListener
  | _ => false

/-- Point at which `startBitcoind` returns or throws before its readiness
loop; `spawned` marks that a new bitcoind child process was spawned. -/
inductive BitcoindStartResult
  | alreadyRunning
  | binaryMissing
  | adoptedExisting
  | portInUseError
  | spawned
deriving DecidableEq

/-- Embeds the pre-spawn control flow of `startBitcoind`: an already-running
managed process is a no-op, a missing binary throws, a port reported in use by
`checkPortInUse` either adopts a responding external instance
(`probeAnswers` embeds the `isBitcoindReady` RPC probe) or throws the
port-in-use error, and otherwise a new process is spawned. -/
def startBitcoind (plat : Platform)
    (running binaryExists portHasListener probeAnswers : Bool) :
    BitcoindStartResult :=
  if running then .alreadyRunning
  else if binaryExists = false then .binaryMissing
  else if checkPortInUse plat portHasListener then
    if probeAnswers then .adoptedExisting else .portInUseError
  else .spawned

/-- Behaviour of one spawned ord server process, observed by the readiness
loop of `startOrdServer`: at poll `i`, `ready i` is the `isOrdServerReady`
answer, `alive i` the `isOrdRunning` answer, and `mismatch i` the state of the
stderr version-mismatch flag. -/
structure OrdRun where
  ready : Nat → Bool
  alive : Nat → Bool
  mismatch : Nat → Bool

/-- Outcome of the sixty-attempt readiness loop over one spawned process. -/
inductive RunOutcome
  | ready
  | died (mismatch : Bool)
  | timeout
deriving DecidableEq

/-- Embeds the readiness polling loop of `startOrdServer`: up to `fuel`
iterations, each checking readiness first and then whether the process is
still alive; a death before readiness reports the mismatch flag observed at
that iteration. -/
def ordWaitLoop (r : OrdRun) : Nat → Nat → RunOutcome
  | _, 0 => .timeout
  | i, fuel + 1 =>
    if r.ready i then .ready
    else if r.alive i = false then .died (r.mismatch i)
    else ordWaitLoop r (i + 1) fuel

/-- Environment of a `startOrdServer` call: binary and cookie preconditions
plus the behaviour of the process spawned on the k-th spawn of this call. -/
structure OrdEnv where
  ordBinaryExists : Bool
  cookieExists : Bool
  runs : Nat → OrdRun

/-- Resolution of a `startOrdServer` call. -/
inductive OrdStartResult
  | alreadyRunning
  | ok
  | errNoBinary
  | errNoCookie
  | errFailedToStart
  | errTimeout
deriving DecidableEq

/-- Embeds the body of `startOrdServer` as re-invoked with the retry flag
cleared: precondition checks, then the readiness loop; a death before
readiness fails with the captured stderr regardless of the mismatch flag, and
no wipe is performed. -/
def startOrdNoRetry (env : OrdEnv) (spawnIdx : Nat) : OrdStartResult × Nat :=
  if env.ordBinaryExists = false then (.errNoBinary, 0)
  else if env.cookieExists = false then (.errNoCookie, 0)
  else
    match ordWaitLoop (env.runs spawnIdx) 0 60 with
    | .ready => (.ok, 0)
    | .timeout => (.errTimeout, 0)
    | .died _ => (.errFailedToStart, 0)

/-- Embeds the body of `startOrdServer` after the is-already-running check,
returning the resolution paired with the number of `clearAllOrdData` wipes
performed. `spawnIdx` counts spawns within this call and `retry` is the
`retryAfterIndexClear` flag. A death with the mismatch flag set and retry
allowed wipes the on-disk data once and re-invokes the body with the flag
cleared; that re-invocation is `startOrdNoRetry`, and the recursive call
re-runs the precondition checks while the managed process is known dead at
that point, so its running check passes. The lemma
`startOrdCore_false_eq_noRetry` below checks that the cleared-flag instance
of this body coincides with `startOrdNoRetry`. -/
def startOrdCore (env : OrdEnv) (spawnIdx : Nat) (retry : Bool) :
    OrdStartResult × Nat :=
  if env.ordBinaryExists = false then (.errNoBinary, 0)
  else if env.cookieExists = false then (.errNoCookie, 0)
  else
    match ordWaitLoop (env.runs spawnIdx) 0 60 with
    | .ready => (.ok, 0)
    | .timeout => (.errTimeout, 0)
    | .died m =>
      if m && retry then
        let p := startOrdNoRetry env (spawnIdx + 1)
        (p.1, p.2 + 1)
      else (.errFailedToStart, 0)

/-- Embeds `startOrdServer` as called with the default retry flag: a no-op if
the managed process is already running, otherwise the recovery state machine
of `startOrdCore` starting at spawn 0 with retry allowed. -/
def startOrdServer (env : OrdEnv) (alreadyRunning : Bool) :
    OrdStartResult × Nat :=
  if alreadyRunning then (.alreadyRunning, 0)
  else startOrdCore env 0 true

theorem strContains_iff (s pat : String) :
    strContains s pat = true ↔ pat.data <:+: s.data := by
  simp [strContains, occursIn_iff]

theorem string_data_append (a b : String) :
    (a ++ b).data = a.data ++ b.data := rfl

/-- Claim C10: the RPC-port resolution applies the per-network default ports
(mainnet 8332, testnet 18332, signet 38332, regtest 18443) only when the
configured port equals the regtest default 18443; any other configured value
is returned unchanged on all four networks. -/
theorem getRpcPort_custom_port_overrides :
    (∀ p : Nat, p ≠ 18443 → ∀ net : Network, getRpcPort p net = p)
    ∧ getRpcPort 18443 Network.mainnet = 8332
    ∧ getRpcPort 18443 Network.testnet = 18332
    ∧ getRpcPort 18443 Network.signet = 38332
    ∧ getRpcPort 18443 Network.regtest = 18443 := by
  refine ⟨fun p hp net => ?_, rfl, rfl, rfl, rfl⟩
  simp [getRpcPort, hp]

/-- Witness for C10 at the concrete custom port 9000. -/
theorem getRpcPort_custom_port_overrides_witness :
    getRpcPort 9000 Network.mainnet = 9000 :=
  getRpcPort_custom_port_overrides.1 9000 (by decide) Network.mainnet

/-- Claim C2: the version-mismatch classifier returns true exactly for stderr
strings containing one of the four signature substrings, and returns false on
the three unrelated error strings. -/
theorem isVersionMismatchError_spec :
    (∀ s : String, isVersionMismatchError s = true ↔
      ("Manual upgrade required".data <:+: s.data ∨
       "Expected file format version".data <:+: s.data ∨
       "failed to open index".data <:+: s.data ∨
       "failed to open wallet database".data <:+: s.data))
    ∧ isVersionMismatchError "Connection refused" = false
    ∧ isVersionMismatchError "Bitcoin RPC error" = false
    ∧ isVersionMismatchError "Network timeout" = false := by
  refine ⟨fun s => ?_, by decide, by decide, by decide⟩
  simp [isVersionMismatchError, Bool.or_eq_true, strContains_iff, or_assoc]

/-- Claim C7: the mine-blocks command on any network other than regtest
returns the refused outcome without issuing the generate-to-address RPC, and
on regtest with the node running and a validated count it issues the RPC. -/
theorem mineBlocks_regtest_only :
    (∀ (network : Network) (running : Bool) (input : Option Nat),
       network ≠ Network.regtest →
       mineBlocks network running input = (MineOutcome.refusedNetwork, false))
    ∧ (∀ n : Nat,
       mineBlocks Network.regtest true (some n) = (MineOutcome.mined n, true)) := by
  constructor
  · intro network running input h
    simp [mineBlocks, h]
  · intro n
    rfl

/-- Witness for C7 on mainnet: mining is refused and no RPC is issued. -/
theorem mineBlocks_regtest_only_witness :
    mineBlocks Network.mainnet true (some 5) = (MineOutcome.refusedNetwork, false) :=
  mineBlocks_regtest_only.1 Network.mainnet true (some 5) (by decide)

/-- Claim C8: with a cardinal balance below the 10000-sat minimum on regtest,
the funding step mines exactly COINBASE_MATURITY + 1 = 101 blocks. -/
theorem ensureWalletFunded_mines_maturity_plus_one :
    ∀ (network : Network) (cardinal : Nat),
      cardinal < 10000 → network = Network.regtest →
      ensureWalletFunded network cardinal =
        { funded := true, blocksMined := some 101 } ∧
      COINBASE_MATURITY + 1 = 101 := by
  intro network cardinal h hn
  subst hn
  exact ⟨by simp [ensureWalletFunded, COINBASE_MATURITY, h], rfl⟩

/-- Witness for C8 at a zero balance on regtest. -/
theorem ensureWalletFunded_mines_maturity_plus_one_witness :
    ensureWalletFunded Network.regtest 0 =
      { funded := true, blocksMined := some 101 } :=
  (ensureWalletFunded_mines_maturity_plus_one Network.regtest 0 (by decide) rfl).1

/-- Claim C5: the indexer readiness predicate is true exactly when the
response has status 200 and a body whose parse is a non-negative integer; a
malformed body, a non-200 status, a connection error and a timeout all yield
false, so readiness asserts more than the process being alive and listening. -/
theorem isOrdServerReady_spec :
    (∀ (status : Nat) (body : String),
       isOrdServerReady (HttpOutcome.response status body) = true ↔
         (status = 200 ∧ ∃ n, parseIntJS body = some n ∧ 0 ≤ n))
    ∧ isOrdServerReady HttpOutcome.connError = false
    ∧ isOrdServerReady HttpOutcome.timedOut = false
    ∧ isOrdServerReady (HttpOutcome.response 200 "still indexing") = false
    ∧ isOrdServerReady (HttpOutcome.response 503 "7") = false := by
  refine ⟨fun status body => ?_, rfl, rfl, by decide, by decide⟩
  by_cases hs : status = 200
  · subst hs
    cases hp : parseIntJS body with
    | some n => simp [isOrdServerReady, hp]
    | none => simp [isOrdServerReady, hp]
  · simp [isOrdServerReady, hs]

/-- Claim C3: the health-check classifier marks a 200 response with a
non-negative integer body healthy with that blockcount, a 200 response that
does not parse as a non-negative integer unhealthy with an error mentioning
Invalid blockcount, a 500 response unhealthy with an error mentioning auth
failure, and a 404 response unhealthy with an error mentioning HTTP 404. -/
theorem verifyOrdBitcoindConnection_spec :
    verifyOrdBitcoindConnection 200 "150" =
      { healthy := true, blockcount := some 150, error := none }
    ∧ verifyOrdBitcoindConnection 200 "0" =
      { healthy := true, blockcount := some 0, error := none }
    ∧ (∀ (body : String) (n : Int), parseIntJS body = some n → 0 ≤ n →
        verifyOrdBitcoindConnection 200 body =
          { healthy := true, blockcount := some n, error := none })
    ∧ (∀ body : String, (∀ n, parseIntJS body = some n → n < 0) →
        (verifyOrdBitcoindConnection 200 body).healthy = false ∧
        ∃ msg, (verifyOrdBitcoindConnection 200 body).error = some msg ∧
          "Invalid blockcount".data <:+: msg.data)
    ∧ (∀ body : String,
        (verifyOrdBitcoindConnection 500 body).healthy = false ∧
        ∃ msg, (verifyOrdBitcoindConnection 500 body).error = some msg ∧
          "auth failure".data <:+: msg.data)
    ∧ (∀ body : String,
        (verifyOrdBitcoindConnection 404 body).healthy = false ∧
        ∃ msg, (verifyOrdBitcoindConnection 404 body).error = some msg ∧
          "HTTP 404".data <:+: msg.data) := by
  refine ⟨by decide, by decide, fun body n hp hn => ?_, fun body hneg => ?_,
    fun body => ?_, fun body => ?_⟩
  · simp [verifyOrdBitcoindConnection, hp, hn]
  · cases hp : parseIntJS body with
    | some n =>
      have hlt : n < 0 := hneg n hp
      have hnle : ¬ (0 : Int) ≤ n := by omega
      refine ⟨by simp [verifyOrdBitcoindConnection, hp, hnle], ?_⟩
      refine ⟨"Invalid blockcount response: " ++ body,
        by simp [verifyOrdBitcoindConnection, hp, hnle], ?_⟩
      exact ⟨[], " response: ".data ++ body.data, rfl⟩
    | none =>
      refine ⟨by simp [verifyOrdBitcoindConnection, hp], ?_⟩
      refine ⟨"Invalid blockcount response: " ++ body,
        by simp [verifyOrdBitcoindConnection, hp], ?_⟩
      exact ⟨[], " response: ".data ++ body.data, rfl⟩
  · refine ⟨by simp [verifyOrdBitcoindConnection], ?_⟩
    refine ⟨"Server error (likely auth failure): " ++ body,
      by simp [verifyOrdBitcoindConnection], ?_⟩
    exact ⟨"Server error (likely ".data, "): ".data ++ body.data, rfl⟩
  · refine ⟨by simp [verifyOrdBitcoindConnection], ?_⟩
    refine ⟨"HTTP " ++ toString 404 ++ ": " ++ body,
      by simp [verifyOrdBitcoindConnection], ?_⟩
    exact ⟨[], ": ".data ++ body.data, rfl⟩

/-- Witness for C3 at the concrete pairs from the spec table. -/
theorem verifyOrdBitcoindConnection_spec_witness :
    verifyOrdBitcoindConnection 200 "150" =
      { healthy := true, blockcount := some 150, error := none } ∧
    (verifyOrdBitcoindConnection 200 "not a number").healthy = false ∧
    (verifyOrdBitcoindConnection 500 "boom").healthy = false ∧
    (verifyOrdBitcoindConnection 404 "x").healthy = false :=
  ⟨verifyOrdBitcoindConnection_spec.1,
   (verifyOrdBitcoindConnection_spec.2.2.2.1 "not a number"
     (by intro n hn; simp [parseIntJS, trimChars, parseIntChars,
       leadingDigitsVal, isJsWhitespace] at hn)).1,
   (verifyOrdBitcoindConnection_spec.2.2.2.2.1 "boom").1,
   (verifyOrdBitcoindConnection_spec.2.2.2.2.2 "x").1⟩

theorem waitForOrdSync_eq_true_exists (heights : Nat → Option Nat)
    (expected : Nat) :
    ∀ fuel i, waitForOrdSync heights expected i fuel = true →
      ∃ j h, heights j = some h ∧ expected ≤ h := by
  intro fuel
  induction fuel with
  | zero => intro i h; simp [waitForOrdSync] at h
  | succ n ih =>
    intro i h
    rw [waitForOrdSync] at h
    cases hp : heights i with
    | some v =>
      rw [hp] at h
      by_cases hv : expected ≤ v
      · exact ⟨i, v, hp, hv⟩
      · simp only [hv, if_false] at h
        exact ih (i + 1) h
    | none =>
      rw [hp] at h
      exact ih (i + 1) h

theorem waitForOrdSync_never_catches_up (heights : Nat → Option Nat)
    (expected : Nat) (hh : ∀ j h, heights j = some h → h < expected) :
    ∀ fuel i, waitForOrdSync heights expected i fuel = false := by
  intro fuel
  induction fuel with
  | zero => intro i; rfl
  | succ n ih =>
    intro i
    rw [waitForOrdSync]
    cases hp : heights i with
    | some v =>
      have hnv : ¬ expected ≤ v := by have := hh i v hp; omega
      simp only [hnv, if_false]
      exact ih (i + 1)
    | none => exact ih (i + 1)

/-- Claim C6: the publish workflow reaches the publish sub-operation only
after some poll of the indexer height endpoint reported a height at or above
the node block count, and with an indexer that never catches up it stops with
the sync failure, never invoking publish. -/
theorem doInscribe_sync_barrier :
    (∀ (servicesOk funded : Bool) (network : Network) (nodeBlocks : Nat)
       (heights : Nat → Option Nat) (budget : Nat),
       servicesOk = true → (funded = true ∨ network = Network.regtest) →
       (∀ j h, heights j = some h → h < nodeBlocks) →
       doInscribe servicesOk funded network nodeBlocks heights budget =
         InscribeOutcome.syncFailed)
    ∧ (∀ (servicesOk funded : Bool) (network : Network) (nodeBlocks : Nat)
       (heights : Nat → Option Nat) (budget : Nat),
       doInscribe servicesOk funded network nodeBlocks heights budget =
         InscribeOutcome.published →
       ∃ j h, heights j = some h ∧ nodeBlocks ≤ h) := by
  constructor
  · intro servicesOk funded network nodeBlocks heights budget hs hf hh
    subst hs
    have hfund : ¬ (funded = false ∧ network ≠ Network.regtest) := by
      rcases hf with hf | hf <;> simp [hf]
    simp [doInscribe, hfund,
      waitForOrdSync_never_catches_up heights nodeBlocks hh budget 0]
  · intro servicesOk funded network nodeBlocks heights budget h
    by_cases hs : servicesOk = false
    · simp [doInscribe, hs] at h
    · by_cases hf : funded = false ∧ network ≠ Network.regtest
      · simp [doInscribe, hs, hf] at h
      · by_cases hw : waitForOrdSync heights nodeBlocks 0 budget = true
        · exact waitForOrdSync_eq_true_exists heights nodeBlocks budget 0 hw
        · simp [doInscribe, hs, hf, hw] at h

/-- Witness for C6: a synthetic indexer stuck at height 3 against a node at
height 5 makes the workflow stop with the sync failure. -/
theorem doInscribe_sync_barrier_witness :
    doInscribe true true Network.regtest 5 (fun _ => some 3) 7 =
      InscribeOutcome.syncFailed :=
  doInscribe_sync_barrier.1 true true Network.regtest 5 (fun _ => some 3) 7
    rfl (Or.inl rfl) (fun j h hj => by simp at hj; omega)

/-- Claim C9: creating a wallet is idempotent at the interface: a non-zero
exit whose stderr or stdout contains the substring already exists resolves as
success, and any other non-zero exit not classified as a version mismatch is
propagated as an error whose message carries the raw stderr. -/
theorem createOrdWallet_already_exists_ok :
    (∀ (stdoutS stderrS errMsg : String) (retry : Bool),
       ("already exists".data <:+: stderrS.data ∨
        "already exists".data <:+: stdoutS.data) →
       createOrdWallet false stdoutS stderrS errMsg retry =
         WalletCreateOutcome.ok)
    ∧ (∀ (stdoutS stderrS errMsg : String) (retry : Bool),
       ¬ "already exists".data <:+: stderrS.data →
       ¬ "already exists".data <:+: stdoutS.data →
       isVersionMismatchError stderrS = false →
       ∃ msg, createOrdWallet false stdoutS stderrS errMsg retry =
         WalletCreateOutcome.err msg ∧ stderrS.data <:+: msg.data) := by
  constructor
  · intro stdoutS stderrS errMsg retry h
    rcases h with h | h
    · have hc : strContains stderrS "already exists" = true :=
        (strContains_iff stderrS "already exists").mpr h
      simp [createOrdWallet, hc]
    · have hc : strContains stdoutS "already exists" = true :=
        (strContains_iff stdoutS "already exists").mpr h
      simp [createOrdWallet, hc]
  · intro stdoutS stderrS errMsg retry h1 h2 hvm
    have hc1 : strContains stderrS "already exists" = false :=
      Bool.eq_false_iff.mpr fun hc =>
        h1 ((strContains_iff stderrS "already exists").mp hc)
    have hc2 : strContains stdoutS "already exists" = false :=
      Bool.eq_false_iff.mpr fun hc =>
        h2 ((strContains_iff stdoutS "already exists").mp hc)
    refine ⟨"Failed to create wallet: " ++
      (if stderrS = "" then errMsg else stderrS),
      by simp [createOrdWallet, hc1, hc2, hvm], ?_⟩
    by_cases he : stderrS = ""
    · rw [he]
      exact ⟨[], ("Failed to create wallet: " ++
        (if ("" : String) = "" then errMsg else "")).data, by simp⟩
    · rw [if_neg he]
      exact ⟨"Failed to create wallet: ".data, [],
        by simp [string_data_append]⟩

/-- Witness for C9: a second create classified through already exists is
success, and a plain failure propagates its stderr. -/
theorem createOrdWallet_already_exists_ok_witness :
    createOrdWallet false "" "wallet already exists" "exit 1" true =
      WalletCreateOutcome.ok ∧
    ∃ msg, createOrdWallet false "" "connection refused by peer" "exit 1" true =
      WalletCreateOutcome.err msg ∧
      "connection refused by peer".data <:+: msg.data :=
  ⟨createOrdWallet_already_exists_ok.1 "" "wallet already exists" "exit 1" true
    (Or.inl (by exact ⟨"wallet ".data, [], by decide⟩)),
   createOrdWallet_already_exists_ok.2 "" "connection refused by peer" "exit 1"
    true (by decide) (by decide) (by decide)⟩

/-- Counterexample for C4: on Linux with the RPC port held by a listener that
does not answer the probe, `startBitcoind` does not fail with the
port-in-use error — `checkPortInUse` returns false off Windows, so a new
process is spawned; the adopt branch is likewise skipped there. -/
theorem startBitcoind_port_precheck_counterexample :
    startBitcoind Platform.linux false true true false =
      BitcoindStartResult.spawned ∧
    BitcoindStartResult.spawned ≠ BitcoindStartResult.portInUseError ∧
    startBitcoind Platform.linux false true true true =
      BitcoindStartResult.spawned ∧
    BitcoindStartResult.spawned ≠ BitcoindStartResult.adoptedExisting := by
  decide

/-- Claim C4 (amended): only on Windows, where the netstat check can report a
listener, does an occupied RPC port lead to adopting a responding external
instance without spawning, or to an immediate port-in-use error without
spawning when the probe does not answer; on every other platform the
pre-check reports the port free and start proceeds to spawn. -/
theorem startBitcoind_port_precheck_windows :
    (∀ probe : Bool,
       startBitcoind Platform.windows false true true probe =
         if probe then BitcoindStartResult.adoptedExisting
         else BitcoindStartResult.portInUseError)
    ∧ (∀ (plat : Platform) (portHasListener probeAnswers : Bool),
       plat ≠ Platform.windows →
       startBitcoind plat false true portHasListener probeAnswers =
         BitcoindStartResult.spawned) := by
  constructor
  · intro probe
    cases probe <;> rfl
  · intro plat portHasListener probeAnswers h
    cases plat with
    | windows => exact absurd rfl h
    | macos => cases portHasListener <;> cases probeAnswers <;> rfl
    | linux => cases portHasListener <;> cases probeAnswers <;> rfl

/-- Witness for C4 (amended): Windows adopts a responding instance, and macOS
spawns past an occupied port. -/
theorem startBitcoind_port_precheck_windows_witness :
    startBitcoind Platform.windows false true true true =
      BitcoindStartResult.adoptedExisting ∧
    startBitcoind Platform.macos false true true false =
      BitcoindStartResult.spawned :=
  ⟨startBitcoind_port_precheck_windows.1 true,
   startBitcoind_port_precheck_windows.2 Platform.macos true false (by decide)⟩

theorem ordWaitLoop_always_dead (r : OrdRun)
    (hr : ∀ i, r.ready i = false) (ha : ∀ i, r.alive i = false)
    (hm : ∀ i, r.mismatch i = true) (fuel i : Nat) :
    ordWaitLoop r i (fuel + 1) = RunOutcome.died true := by
  simp [ordWaitLoop, hr, ha, hm]

theorem startOrdNoRetry_no_wipe (env : OrdEnv) (i : Nat) :
    (startOrdNoRetry env i).2 = 0 := by
  rw [startOrdNoRetry]
  split
  · rfl
  · split
    · rfl
    · cases ordWaitLoop (env.runs i) 0 60 <;> rfl

theorem startOrdCore_false_eq_noRetry (env : OrdEnv) (i : Nat) :
    startOrdCore env i false = startOrdNoRetry env i := by
  rw [startOrdCore]
  conv_rhs => rw [startOrdNoRetry]
  split
  · rfl
  · split
    · rfl
    · cases ordWaitLoop (env.runs i) 0 60 with
      | ready => rfl
      | timeout => rfl
      | died m => simp

theorem startOrdCore_no_retry_no_wipe (env : OrdEnv) (i : Nat) :
    (startOrdCore env i false).2 = 0 := by
  rw [startOrdCore_false_eq_noRetry]
  exact startOrdNoRetry_no_wipe env i

theorem startOrdCore_wipes_at_most_once (env : OrdEnv) (i : Nat)
    (retry : Bool) : (startOrdCore env i retry).2 ≤ 1 := by
  cases retry with
  | false => simp [startOrdCore_no_retry_no_wipe]
  | true =>
    rw [startOrdCore]
    split
    · simp
    · split
      · simp
      · cases ordWaitLoop (env.runs i) 0 60 with
        | ready => simp
        | timeout => simp
        | died m =>
          cases m with
          | false => simp
          | true => simp [startOrdNoRetry_no_wipe]

/-- Claim C1: the start of the indexer wipes on-disk data at most once per
call; the retried attempt (retry flag cleared) never wipes and never recurses;
and against an indexer that always emits a version-mismatch signature and
always exits non-zero, start wipes exactly once and then fails instead of
looping. -/
theorem startOrdServer_recovery_at_most_once :
    (∀ (env : OrdEnv) (i : Nat), (startOrdCore env i false).2 = 0)
    ∧ (∀ (env : OrdEnv) (i : Nat) (retry : Bool),
        (startOrdCore env i retry).2 ≤ 1)
    ∧ (∀ env : OrdEnv,
        env.ordBinaryExists = true → env.cookieExists = true →
        (∀ k j, (env.runs k).ready j = false) →
        (∀ k j, (env.runs k).alive j = false) →
        (∀ k j, (env.runs k).mismatch j = true) →
        startOrdServer env false = (OrdStartResult.errFailedToStart, 1)) := by
  refine ⟨startOrdCore_no_retry_no_wipe, startOrdCore_wipes_at_most_once,
    fun env hb hc hr ha hm => ?_⟩
  have h60 : (60 : Nat) = 59 + 1 := rfl
  have h0 : ordWaitLoop (env.runs 0) 0 60 = RunOutcome.died true := by
    rw [h60]
    exact ordWaitLoop_always_dead (env.runs 0) (hr 0) (ha 0) (hm 0) 59 0
  have h1 : ordWaitLoop (env.runs 1) 0 60 = RunOutcome.died true := by
    rw [h60]
    exact ordWaitLoop_always_dead (env.runs 1) (hr 1) (ha 1) (hm 1) 59 0
  rw [startOrdServer]
  rw [if_neg (by simp)]
  rw [startOrdCore]
  rw [if_neg (by simp [hb]), if_neg (by simp [hc]), h0]
  rw [startOrdNoRetry]
  rw [if_neg (by simp [hb]), if_neg (by simp [hc]), h1]
  rfl

/-- Witness for C1 with the concrete always-failing, always-mismatching
indexer environment. -/
theorem startOrdServer_recovery_at_most_once_witness :
    startOrdServer
      { ordBinaryExists := true, cookieExists := true,
        runs := fun _ =>
          { ready := fun _ => false, alive := fun _ => false,
            mismatch := fun _ => true } } false =
      (OrdStartResult.errFailedToStart, 1) :=
  startOrdServer_recovery_at_most_once.2.2
    { ordBinaryExists := true, cookieExists := true,
      runs := fun _ =>
        { ready := fun _ => false, alive := fun _ => false,
          mismatch := fun _ => true } }
    rfl rfl (fun _ _ => rfl) (fun _ _ => rfl) (fun _ _ => rfl)
